import Mathlib

set_option maxRecDepth 100000

/-!
Shallow embedding of the consultation request/response lifecycle of the
Healthcare-AI-Agent repository (files `healthcare_agent_gui.py` and
`healthcare_agent_interactive.py`), together with theorems settling the
spec claims about it.

The GUI widget layer is modelled as explicit state: the fields of
`GuiState` mirror the mutable attributes of `HealthcareAssistantGUI`
(`demo_mode`, `is_processing`, `consultation_history`) plus the text
content of the output, status and history widgets.  Python string
operations used by the code (`str.strip`, slicing `s[:n]`, `str.upper`)
are embedded as code-point-level functions on `String`.
-/

/-- Python `str.strip()`: remove leading and trailing whitespace. -/
def pyStrip (s : String) : String :=
  String.mk (((s.data.dropWhile Char.isWhitespace).reverse.dropWhile Char.isWhitespace).reverse)

/-- Python slice `s[:n]` on code points. -/
def pySlice (s : String) (n : Nat) : String :=
  String.mk (s.data.take n)

/-- Python `str.upper()` (ASCII case mapping, which covers the specialist names used). -/
def pyUpper (s : String) : String :=
  String.mk (s.data.map Char.toUpper)

/-- `sub` occurs as a contiguous substring of `s`. -/
def ContainsStr (s sub : String) : Prop :=
  ∃ a b, s = a ++ (sub ++ b)

/-- Mutable state of `HealthcareAssistantGUI` relevant to the consultation
lifecycle: `demo_mode` and `is_processing` flags, the in-memory
`consultation_history` list, and the text shown in the output textbox, the
navbar status indicator and the history textbox. -/
structure GuiState where
  demo_mode : Bool
  is_processing : Bool
  consultation_history : List String
  output_text : String
  status_text : String
  history_text : String
deriving DecidableEq

/-- The placeholder text of the query textbox (`healthcare_agent_gui.py`). -/
def gui_placeholder : String :=
  "Describe your symptoms or health question in detail..."

/-- Initial output textbox content inserted by `setup_consultation_tab`. -/
def initial_output_text : String :=
  "🏥 Enter your health query and click 'Get Guidance' to receive AI-powered medical advice from our specialists.\n\nThis is informational only. Always consult qualified healthcare professionals for medical diagnosis and treatment."

/-- Synchronous result of `run_consultation`: one of the three rejection
paths, or acceptance dispatching the stripped query to the worker thread. -/
inductive SubmitAction where
  | rejectProcessing
  | rejectDemoMode
  | rejectEmptyQuery
  | dispatch (query : String)
deriving DecidableEq

/-- The spec files a rejection under `ValidationError` when it is the
already-processing guard or the empty/placeholder query guard. -/
def isValidationError : SubmitAction → Bool
  | SubmitAction.rejectProcessing => true
  | SubmitAction.rejectEmptyQuery => true
  | _ => false

/-- The spec files the demo-mode rejection under `ConfigurationError`. -/
def isConfigurationError : SubmitAction → Bool
  | SubmitAction.rejectDemoMode => true
  | _ => false

/-- Whether the action dispatches a background consultation. -/
def isDispatch : SubmitAction → Bool
  | SubmitAction.dispatch _ => true
  | _ => false

/-- `HealthcareAssistantGUI.run_consultation`: the guard sequence of the
source, in source order — `is_processing` first, then `demo_mode`, then the
empty/placeholder check on the stripped query; on acceptance the output
textbox is replaced by the analyzing banner, `is_processing` is set and the
status indicator switches to Analyzing, and the query is handed to the
background thread. -/
def run_consultation (st : GuiState) (raw_query : String) : GuiState × SubmitAction :=
  if st.is_processing then
    (st, SubmitAction.rejectProcessing)
  else if st.demo_mode then
    (st, SubmitAction.rejectDemoMode)
  else
    let query := pyStrip raw_query
    if query = "" ∨ query = gui_placeholder then
      (st, SubmitAction.rejectEmptyQuery)
    else
      ({ st with
          output_text := "🔄 AI specialist is analyzing your query...",
          is_processing := true,
          status_text := "● Analyzing" },
       SubmitAction.dispatch query)

/-- `HealthcareAssistantGUI.__init__`: `demo_mode` is set exactly when the
`GOOGLE_API_KEY` credential is absent; `is_processing` starts false and the
history starts empty. -/
def initState (api_key : Option String) : GuiState :=
  { demo_mode := api_key.isNone
    is_processing := false
    consultation_history := []
    output_text := initial_output_text
    status_text := "● Ready"
    history_text := "" }

/-- A session: a sequence of `run_consultation` submissions, threading the
state and recording the action taken on each. -/
def sessionRun : GuiState → List String → GuiState × List SubmitAction
  | st, [] => (st, [])
  | st, q :: qs =>
    let r := run_consultation st q
    let rest := sessionRun r.1 qs
    (rest.1, r.2 :: rest.2)

theorem sessionRun_demo (qs : List String) (st : GuiState)
    (hd : st.demo_mode = true) (hp : st.is_processing = false) :
    sessionRun st qs = (st, qs.map fun _ => SubmitAction.rejectDemoMode) := by
  induction qs with
  | nil => rfl
  | cons q qs ih => simp [sessionRun, run_consultation, hd, hp, ih]

/-- Persona descriptor of a GUI specialist: the `role`, `goal` and
`backstory` entries of `agent_configs` in `execute_consultation`. -/
structure AgentConfig where
  role : String
  goal : String
  backstory : String
deriving DecidableEq

def gui_cfg_medical_advisor : AgentConfig :=
  { role := "Medical Advisor"
    goal := "Provide accurate medical information and comprehensive guidance"
    backstory := "You are an experienced medical advisor with extensive knowledge \n                    of various medical conditions, symptoms, and treatments. You provide clear, \n                    evidence-based medical information while emphasizing the importance of consulting \n                    healthcare professionals for diagnosis and treatment." }

def gui_cfg_symptom_analyzer : AgentConfig :=
  { role := "Symptom Analyzer"
    goal := "Analyze symptoms and suggest possible conditions"
    backstory := "You are a symptom analysis expert trained to identify patterns \n                    in patient-reported symptoms. You provide possible explanations for symptoms, \n                    assess severity, and recommend when immediate medical attention is needed." }

def gui_cfg_treatment_recommender : AgentConfig :=
  { role := "Treatment Recommender"
    goal := "Suggest evidence-based treatment options"
    backstory := "You are a treatment specialist knowledgeable about various \n                    medical treatments, medications, and therapies. You provide comprehensive \n                    treatment information while emphasizing proper medical supervision." }

def gui_cfg_nutrition_specialist : AgentConfig :=
  { role := "Nutrition Specialist"
    goal := "Provide dietary guidance and nutritional advice"
    backstory := "You are a certified nutritionist with expertise in therapeutic \n                    nutrition and dietary management of diseases. You provide personalized \n                    nutritional guidance based on health conditions." }

def gui_cfg_mental_health_counselor : AgentConfig :=
  { role := "Mental Health Counselor"
    goal := "Provide mental health support and coping strategies"
    backstory := "You are a compassionate mental health counselor trained in \n                    psychology and therapeutic techniques. You provide emotional support, coping \n                    strategies, and guidance for mental health concerns." }

def gui_cfg_fitness_coach : AgentConfig :=
  { role := "Fitness Coach"
    goal := "Provide exercise guidance and fitness recommendations"
    backstory := "You are a certified fitness coach with expertise in exercise \n                    physiology and rehabilitation. You create safe, effective exercise recommendations \n                    tailored to individual health conditions." }

def gui_cfg_disease_educator : AgentConfig :=
  { role := "Disease Educator"
    goal := "Educate about diseases, prevention, and management"
    backstory := "You are a health educator specializing in disease information \n                    and prevention strategies. You explain complex medical concepts in clear language." }

def gui_cfg_preventive_medicine : AgentConfig :=
  { role := "Preventive Medicine Expert"
    goal := "Provide prevention strategies and wellness recommendations"
    backstory := "You are a preventive medicine expert focused on disease prevention \n                    and health promotion. You provide actionable recommendations for maintaining health." }

def gui_cfg_emergency_response : AgentConfig :=
  { role := "Emergency Response Advisor"
    goal := "Provide emergency guidance and critical response information"
    backstory := "You are an emergency medicine advisor trained in crisis management. \n                    You provide immediate guidance for emergencies and identify when to call emergency services." }

/-- The `agent_configs` dict of `HealthcareAssistantGUI.execute_consultation`. -/
def gui_agent_configs : List (String × AgentConfig) :=
  [("Medical Advisor", gui_cfg_medical_advisor),
   ("Symptom Analyzer", gui_cfg_symptom_analyzer),
   ("Treatment Recommender", gui_cfg_treatment_recommender),
   ("Nutrition Specialist", gui_cfg_nutrition_specialist),
   ("Mental Health Counselor", gui_cfg_mental_health_counselor),
   ("Fitness Coach", gui_cfg_fitness_coach),
   ("Disease Educator", gui_cfg_disease_educator),
   ("Preventive Medicine Expert", gui_cfg_preventive_medicine),
   ("Emergency Response Advisor", gui_cfg_emergency_response)]

/-- `agent_configs.get(specialist, agent_configs["Medical Advisor"])`. -/
def gui_config (specialist : String) : AgentConfig :=
  ((gui_agent_configs.find? (fun p => p.1 == specialist)).map Prod.snd).getD
    gui_cfg_medical_advisor

/-- Persona descriptor of a CLI specialist (`agent_configs` entries in
`consult_healthcare_agent`): goal and backstory only, the agent role being
the specialist name itself. -/
structure CliAgentConfig where
  goal : String
  backstory : String
deriving DecidableEq

def cli_cfg_medical_advisor : CliAgentConfig :=
  { goal := "Provide accurate medical information and guidance"
    backstory := "You are an experienced medical advisor with extensive knowledge \n                of various medical conditions, symptoms, and treatments. You provide clear, \n                evidence-based medical information while always emphasizing the importance \n                of consulting healthcare professionals for diagnosis and treatment." }

def cli_cfg_symptom_analyzer : CliAgentConfig :=
  { goal := "Analyze symptoms and suggest possible conditions"
    backstory := "You are a symptom analysis expert trained to identify patterns \n                in patient-reported symptoms. You provide possible explanations for symptoms, \n                assess severity, and recommend when immediate medical attention is needed. \n                You never provide definitive diagnoses." }

def cli_cfg_treatment_recommender : CliAgentConfig :=
  { goal := "Suggest evidence-based treatment options and lifestyle changes"
    backstory := "You are a treatment specialist knowledgeable about various \n                medical treatments, medications, therapies, and lifestyle modifications. \n                You provide comprehensive treatment information while emphasizing proper \n                medical supervision." }

def cli_cfg_nutrition_specialist : CliAgentConfig :=
  { goal := "Provide dietary guidance and nutritional advice"
    backstory := "You are a certified nutritionist with expertise in therapeutic \n                nutrition, dietary management of diseases, and healthy eating. You provide \n                personalized nutritional guidance based on health conditions and goals." }

def cli_cfg_mental_health_counselor : CliAgentConfig :=
  { goal := "Provide mental health support and coping strategies"
    backstory := "You are a compassionate mental health counselor trained in \n                psychology and therapeutic techniques. You provide emotional support, coping \n                strategies, and guidance for mental health concerns while recognizing when \n                professional help is needed." }

def cli_cfg_fitness_coach : CliAgentConfig :=
  { goal := "Provide exercise guidance and fitness recommendations"
    backstory := "You are a certified fitness coach with expertise in exercise \n                physiology, rehabilitation, and physical wellness. You create safe, effective \n                exercise recommendations tailored to individual health conditions and fitness levels." }

def cli_cfg_disease_educator : CliAgentConfig :=
  { goal := "Educate about diseases, prevention, and management"
    backstory := "You are a health educator specializing in disease information, \n                prevention strategies, and self-management techniques. You explain complex \n                medical concepts in clear, understandable language." }

/-- The `agent_configs` dict of `consult_healthcare_agent` (CLI). -/
def cli_agent_configs : List (String × CliAgentConfig) :=
  [("Medical Advisor", cli_cfg_medical_advisor),
   ("Symptom Analyzer", cli_cfg_symptom_analyzer),
   ("Treatment Recommender", cli_cfg_treatment_recommender),
   ("Nutrition Specialist", cli_cfg_nutrition_specialist),
   ("Mental Health Counselor", cli_cfg_mental_health_counselor),
   ("Fitness Coach", cli_cfg_fitness_coach),
   ("Disease Educator", cli_cfg_disease_educator)]

/-- `agent_configs.get(specialist, agent_configs["Medical Advisor"])` (CLI). -/
def cli_config (specialist : String) : CliAgentConfig :=
  ((cli_agent_configs.find? (fun p => p.1 == specialist)).map Prod.snd).getD
    cli_cfg_medical_advisor

/-- The `specialists` combo-box values of `setup_consultation_tab` (GUI). -/
def gui_specialists : List String :=
  ["Medical Advisor",
   "Symptom Analyzer",
   "Treatment Recommender",
   "Nutrition Specialist",
   "Mental Health Counselor",
   "Fitness Coach",
   "Disease Educator",
   "Preventive Medicine Expert",
   "Emergency Response Advisor"]

/-- The numbered `specialists` menu of `get_healthcare_specialist` (CLI):
choice key, role, description. -/
def cli_specialists_menu : List (String × String × String) :=
  [("1", "Medical Advisor", "General medical information and guidance"),
   ("2", "Symptom Analyzer", "Analyze symptoms and suggest possible conditions"),
   ("3", "Treatment Recommender", "Evidence-based treatment options and lifestyle changes"),
   ("4", "Nutrition Specialist", "Dietary guidance and nutritional advice"),
   ("5", "Mental Health Counselor", "Mental health support and coping strategies"),
   ("6", "Fitness Coach", "Exercise guidance and fitness recommendations"),
   ("7", "Disease Educator", "Disease information, prevention, and management")]

/-- `get_healthcare_specialist` (CLI): strip the entered choice; a key found
in the menu selects its role/description pair, anything else falls back to
the Medical Advisor entry keyed "1". -/
def get_healthcare_specialist (raw_choice : String) : String × String :=
  match (cli_specialists_menu.find? (fun p => p.1 == pyStrip raw_choice)).map Prod.snd with
  | some rd => rd
  | none => ("Medical Advisor", "General medical information and guidance")

/-- The roles offered by the CLI menu. -/
def cli_specialist_roles : List String :=
  cli_specialists_menu.map (fun p => p.2.1)

/-- The six numbered INSTRUCTIONS directives of the GUI task description. -/
def guiDirectives : List String :=
  ["1. Provide clear, accurate information",
   "2. If symptoms are mentioned, explain possible conditions (not diagnoses)",
   "3. Suggest when to seek medical attention",
   "4. Provide practical recommendations",
   "5. Always remind this is informational, not medical advice",
   "6. Be compassionate and supportive"]

/-- The seven numbered INSTRUCTIONS directives of the CLI task description. -/
def cliDirectives : List String :=
  ["1. Provide clear, accurate information",
   "2. If symptoms are mentioned, explain possible conditions (not diagnoses)",
   "3. Suggest when to seek immediate medical attention",
   "4. Provide practical recommendations",
   "5. Include relevant health tips",
   "6. Always remind that this is informational, not medical advice",
   "7. Be compassionate and supportive in tone"]

/-- Literal tail of the GUI task-description f-string after the query. -/
def guiDescTail : String :=
  "\n                \n                INSTRUCTIONS:\n                1. Provide clear, accurate information\n                2. If symptoms are mentioned, explain possible conditions (not diagnoses)\n                3. Suggest when to seek medical attention\n                4. Provide practical recommendations\n                5. Always remind this is informational, not medical advice\n                6. Be compassionate and supportive\n                \n                Provide a comprehensive, well-structured response.\n                "

/-- The GUI `Task` description f-string of `execute_consultation`. -/
def guiTaskDescription (specialist query : String) : String :=
  "\n                As a " ++ specialist ++ ", analyze the following health query and provide helpful guidance:\n                \n                QUERY: " ++ query ++ guiDescTail

/-- Literal tail of the CLI task-description f-string after the query. -/
def cliDescTail : String :=
  "\n            \n            INSTRUCTIONS:\n            1. Provide clear, accurate information\n            2. If symptoms are mentioned, explain possible conditions (not diagnoses)\n            3. Suggest when to seek immediate medical attention\n            4. Provide practical recommendations\n            5. Include relevant health tips\n            6. Always remind that this is informational, not medical advice\n            7. Be compassionate and supportive in tone\n            \n            Provide a comprehensive, well-structured response.\n            "

/-- The CLI `Task` description f-string of `consult_healthcare_agent`. -/
def cliTaskDescription (specialist query : String) : String :=
  "\n            As a " ++ specialist ++ ", analyze the following health query and provide helpful guidance:\n            \n            QUERY: " ++ query ++ cliDescTail

/-- What the lifecycle hands to the external agent framework for one
request: the `Agent` fields (role, goal, backstory) and the `Task` fields
(description, expected_output) given to `Crew`. -/
structure GatewayRequest where
  role : String
  goal : String
  backstory : String
  descr : String
  expected_output : String
deriving DecidableEq

/-- The request the GUI builds for one accepted submission. -/
def gui_gateway_request (specialist query : String) : GatewayRequest :=
  { role := (gui_config specialist).role
    goal := (gui_config specialist).goal
    backstory := (gui_config specialist).backstory
    descr := guiTaskDescription specialist query
    expected_output := "Comprehensive healthcare guidance" }

/-- The request the CLI builds for one consultation (the agent role is the
specialist name itself). -/
def cli_gateway_request (specialist query : String) : GatewayRequest :=
  { role := specialist
    goal := (cli_config specialist).goal
    backstory := (cli_config specialist).backstory
    descr := cliTaskDescription specialist query
    expected_output := "Comprehensive healthcare guidance with clear explanations" }

/-- Outcome of one completed consultation: the formatted success text, or
the synthesized fallback (demo) text produced in the exception handler. -/
inductive ConsultationOutcome where
  | success (body : String)
  | fallbackDemo (body : String)
deriving DecidableEq

/-- Whether the outcome is the fallback variant. -/
def isFallback : ConsultationOutcome → Bool
  | ConsultationOutcome.fallbackDemo _ => true
  | _ => false

/-- The `formatted_result` f-string of `execute_consultation`: boxed
upper-cased specialist header, timestamp, raw body, disclaimer footer. -/
def formatted_result (specialist timestamp result : String) : String :=
  "\n┌─────────────────────────────────────────────────────────┐\n│ 🏥 " ++ pyUpper specialist ++ "\n└─────────────────────────────────────────────────────────┘\n📅 Consultation Date: " ++ timestamp ++ "\n\n" ++ result ++ "\n\n─────────────────────────────────────────────────────────\n\n⚠️  MEDICAL DISCLAIMER\nThis guidance is informational only and not a substitute for \nprofessional medical advice. Always consult qualified healthcare \nprofessionals for diagnosis, treatment, and emergency situations.\n\n─────────────────────────────────────────────────────────"

/-- The `simulated_result` f-string of the exception handler of
`execute_consultation`: same header/timestamp framing, fixed simulated
guidance paragraph, and a note carrying the stringified cause. -/
def simulated_result (specialist timestamp e : String) : String :=
  "\n┌─────────────────────────────────────────────────────────┐\n│ 🏥 " ++ pyUpper specialist ++ " (Demo Response)\n└─────────────────────────────────────────────────────────┘\n📅 Consultation Date: " ++ timestamp ++ "\n\nIt appears the live AI consultation failed to complete (network or API error).\nBelow is a simulated guidance response so you can continue testing the application layout and flow.\n\n-- SAMPLE GUIDANCE START --\n\nThank you for describing your concern. Based on the symptoms you've provided, here are some possibilities and suggestions:\n\n- Common causes may include muscle strain, overuse, or minor nerve irritation.\n- If you have sudden severe pain, numbness, weakness, or loss of function, seek immediate medical attention.\n- For mild to moderate pain: rest, ice, compression, elevation (RICE) and use over-the-counter analgesics as appropriate.\n- Monitor for worsening symptoms and consult a healthcare professional if symptoms persist beyond a few days.\n\n-- SAMPLE GUIDANCE END --\n\n⚠️ Note: This is a simulated message. The real AI consultation failed with error: " ++ e ++ "\n\n"

/-- The success-path `history_entry` f-string. -/
def history_entry_success (timestamp specialist query : String) : String :=
  "\n[" ++ timestamp ++ "] " ++ specialist ++ ": " ++ pySlice query 100 ++ "...\n"

/-- The fallback-path `history_entry` f-string (with fallback marker). -/
def history_entry_fallback (timestamp specialist query : String) : String :=
  "\n[" ++ timestamp ++ "] " ++ specialist ++ " (demo fallback): " ++ pySlice query 100 ++ "...\n"

/-- `HealthcareAssistantGUI.execute_consultation`, with the external
`crew.kickoff()` call abstracted as an `Except`: `ok` carries the returned
text, `error` carries the stringified exception.  Returns the outcome
delivered to `display_result` and the updated `consultation_history`.
Both branches terminate in displayable text — no exception escapes. -/
def execute_consultation (specialist timestamp query : String)
    (kickoff : Except String String) (history : List String) :
    ConsultationOutcome × List String :=
  match kickoff with
  | Except.ok result =>
      (ConsultationOutcome.success (formatted_result specialist timestamp result),
       history ++ [history_entry_success timestamp specialist query])
  | Except.error e =>
      (ConsultationOutcome.fallbackDemo (simulated_result specialist timestamp e),
       history ++ [history_entry_fallback timestamp specialist query])

/-- Header written by `update_history_display` when history is nonempty. -/
def history_header : String :=
  "📋 YOUR CONSULTATION HISTORY\n" ++ String.mk (List.replicate 50 (Char.ofNat 61)) ++ "\n\n"

/-- Placeholder written by `update_history_display` when history is empty. -/
def no_history_text : String :=
  "No consultations yet.\n\nUse the Consultation tab to start your first medical consultation."

/-- `HealthcareAssistantGUI.update_history_display`: the text rendered into
the history textbox — header followed by the entries iterated with
`reversed(...)` (most recent first), or the empty placeholder. -/
def update_history_display (history : List String) : String :=
  if history.isEmpty then no_history_text
  else history_header ++ String.join history.reverse

/-- The four state-changing steps of the `try` block of
`HealthcareAssistantGUI.display_result`, in source order: write the result
into the output textbox, clear `is_processing`, set the Complete status,
re-render the history textbox. -/
def display_steps (result : String) : List (GuiState → GuiState) :=
  [fun st => { st with output_text := result },
   fun st => { st with is_processing := false },
   fun st => { st with status_text := "● Complete" },
   fun st => { st with history_text := update_history_display st.consultation_history }]

/-- Apply a list of state transformers in order. -/
def applySteps (fs : List (GuiState → GuiState)) (st : GuiState) : GuiState :=
  fs.foldl (fun s f => f s) st

/-- `HealthcareAssistantGUI.display_result`: on the normal path the whole
`try` block runs; if rendering raises at step `k` (`failStep = some k`),
the steps before `k` have run and the `except` handler then clears
`is_processing` and sets the Error status. -/
def display_result (result : String) (failStep : Option Nat) (st : GuiState) : GuiState :=
  match failStep with
  | none => applySteps (display_steps result) st
  | some k =>
      { applySteps ((display_steps result).take k) st with
          is_processing := false, status_text := "● Error" }

theorem containsStr_append_end (a sub : String) : ContainsStr (a ++ sub) sub :=
  ⟨a, "", by rw [String.append_empty]⟩

theorem ContainsStr.appendRight {a sub : String} (h : ContainsStr a sub) (b : String) :
    ContainsStr (a ++ b) sub := by
  obtain ⟨x, y, hx⟩ := h
  exact ⟨x, y ++ b, by rw [hx, String.append_assoc, String.append_assoc]⟩

theorem ContainsStr.appendLeft {b sub : String} (h : ContainsStr b sub) (a : String) :
    ContainsStr (a ++ b) sub := by
  obtain ⟨x, y, hx⟩ := h
  exact ⟨a ++ x, y, by rw [hx, String.append_assoc]⟩

theorem containsStr_appended (a sub b : String) : ContainsStr (a ++ sub ++ b) sub :=
  (containsStr_append_end a sub).appendRight b

/-- C1: for every accepted submission whose gateway invocation
(`crew.kickoff`) raises any exception, `execute_consultation` produces a
FallbackDemo outcome whose body contains the stringified cause, never a
bare propagated exception (the embedding is a total function into
outcomes), and the corresponding history entry carries the fallback
marker. -/
theorem C1_gateway_error_yields_fallback (specialist timestamp query e : String)
    (history : List String) :
    execute_consultation specialist timestamp query (Except.error e) history =
      (ConsultationOutcome.fallbackDemo (simulated_result specialist timestamp e),
       history ++ [history_entry_fallback timestamp specialist query]) ∧
    ContainsStr (simulated_result specialist timestamp e) e ∧
    ContainsStr (history_entry_fallback timestamp specialist query) " (demo fallback): " ∧
    isFallback (execute_consultation specialist timestamp query (Except.error e) history).1 = true := by
  refine ⟨rfl, ?_, ?_, rfl⟩
  · unfold simulated_result
    exact containsStr_appended _ _ _
  · unfold history_entry_fallback
    exact ((containsStr_append_end _ _).appendRight _).appendRight _

/-- C2: a call to `run_consultation` made while a prior request is in
flight (`is_processing` true) is rejected by the already-processing guard
— a ValidationError in the spec's taxonomy — the state is returned
unchanged, and nothing is dispatched. -/
theorem C2_reject_while_processing (st : GuiState) (raw_query : String)
    (h : st.is_processing = true) :
    run_consultation st raw_query = (st, SubmitAction.rejectProcessing) ∧
    isValidationError SubmitAction.rejectProcessing = true ∧
    isDispatch SubmitAction.rejectProcessing = false := by
  refine ⟨?_, rfl, rfl⟩
  simp [run_consultation, h]

/-- A state whose previous request is still in flight. -/
def processingState : GuiState :=
  { demo_mode := false
    is_processing := true
    consultation_history := []
    output_text := "🔄 AI specialist is analyzing your query..."
    status_text := "● Analyzing"
    history_text := "" }

theorem C2_witness :
    processingState.is_processing = true ∧
    (run_consultation processingState "I have a headache" =
        (processingState, SubmitAction.rejectProcessing) ∧
      isValidationError SubmitAction.rejectProcessing = true ∧
      isDispatch SubmitAction.rejectProcessing = false) :=
  ⟨rfl, C2_reject_while_processing processingState "I have a headache" rfl⟩

/-- C3: starting without the delegate credential (`initState none`, demo
mode), every submission of the session is rejected by the demo-mode guard
— a ConfigurationError — before any dispatch, the state never changes, and
`is_processing` is false after every prefix of the session. -/
theorem C3_demo_mode_session (qs : List String) :
    sessionRun (initState none) qs =
      (initState none, qs.map fun _ => SubmitAction.rejectDemoMode) ∧
    (∀ i : Nat, (sessionRun (initState none) (qs.take i)).1.is_processing = false) ∧
    isConfigurationError SubmitAction.rejectDemoMode = true ∧
    isDispatch SubmitAction.rejectDemoMode = false := by
  have key : ∀ l : List String,
      sessionRun (initState none) l =
        (initState none, l.map fun _ => SubmitAction.rejectDemoMode) :=
    fun l => sessionRun_demo l (initState none) rfl rfl
  exact ⟨key qs, fun i => by rw [key (qs.take i)]; rfl, rfl, rfl⟩

/-- C10: whatever outcome text is delivered and whether or not rendering
raises (at any step), `display_result` leaves `is_processing` false, so
the processing guard no longer blocks a new submission. -/
theorem C10_display_result_clears_processing (result : String) (failStep : Option Nat)
    (st : GuiState) :
    (display_result result failStep st).is_processing = false := by
  cases failStep with
  | none => rfl
  | some k => rfl

/-- C4: every completed outcome — success or fallback — appends exactly one
new entry to the consultation history (the old history is preserved as a
prefix, so entries are never removed or edited), and the history view
renders the appended history with the new entry first, followed by the
older entries most-recent-first. -/
theorem C4_history_one_entry_reverse_order (specialist timestamp query : String)
    (kickoff : Except String String) (history : List String) :
    ∃ entry,
      (execute_consultation specialist timestamp query kickoff history).2 =
        history ++ [entry] ∧
      (execute_consultation specialist timestamp query kickoff history).2.length =
        history.length + 1 ∧
      List.IsPrefix history (execute_consultation specialist timestamp query kickoff history).2 ∧
      update_history_display (history ++ [entry]) =
        history_header ++ String.join (entry :: history.reverse) := by
  have view : ∀ entry : String,
      update_history_display (history ++ [entry]) =
        history_header ++ String.join (entry :: history.reverse) := by
    intro entry
    simp [update_history_display]
  cases kickoff with
  | ok r =>
      exact ⟨history_entry_success timestamp specialist query, rfl, by simp [execute_consultation],
        ⟨[history_entry_success timestamp specialist query], rfl⟩, view _⟩
  | error e =>
      exact ⟨history_entry_fallback timestamp specialist query, rfl, by simp [execute_consultation],
        ⟨[history_entry_fallback timestamp specialist query], rfl⟩, view _⟩

/-- An idle demo-mode state (no credential configured). -/
def demoIdleState : GuiState :=
  { demo_mode := true
    is_processing := false
    consultation_history := []
    output_text := initial_output_text
    status_text := "● Ready"
    history_text := "" }

/-- C5 counterexample: submitting the empty query in demo mode is rejected
by the demo-mode guard (a ConfigurationError), not by the empty-query
ValidationError — the demo-mode check of `run_consultation` precedes the
query check, contrary to the claim's unconditional ValidationError. -/
theorem C5_counterexample :
    pyStrip "" = "" ∧
    run_consultation demoIdleState "" = (demoIdleState, SubmitAction.rejectDemoMode) ∧
    isValidationError SubmitAction.rejectDemoMode = false ∧
    isConfigurationError SubmitAction.rejectDemoMode = true :=
  ⟨rfl, rfl, rfl, rfl⟩

/-- C5 (amended): outside demo mode, every submission whose query is empty
after stripping or equals the placeholder text is rejected with a
ValidationError (the already-processing guard, also a ValidationError, may
fire first), the state — including the history log — is unchanged, and
nothing is dispatched. -/
theorem C5_empty_or_placeholder_rejected (st : GuiState) (raw_query : String)
    (hdemo : st.demo_mode = false)
    (hq : pyStrip raw_query = "" ∨ pyStrip raw_query = gui_placeholder) :
    (run_consultation st raw_query).1 = st ∧
    isValidationError (run_consultation st raw_query).2 = true ∧
    isDispatch (run_consultation st raw_query).2 = false := by
  cases hp : st.is_processing with
  | true => simp [run_consultation, hp, isValidationError, isDispatch]
  | false =>
      rcases hq with h | h <;>
        simp [run_consultation, hp, hdemo, h, isValidationError, isDispatch]

/-- An idle state with a credential configured. -/
def idleState : GuiState :=
  { demo_mode := false
    is_processing := false
    consultation_history := []
    output_text := initial_output_text
    status_text := "● Ready"
    history_text := "" }

theorem C5_witness :
    idleState.demo_mode = false ∧
    (pyStrip "" = "" ∨ pyStrip "" = gui_placeholder) ∧
    ((run_consultation idleState "").1 = idleState ∧
      isValidationError (run_consultation idleState "").2 = true ∧
      isDispatch (run_consultation idleState "").2 = false) :=
  ⟨rfl, Or.inl rfl, C5_empty_or_placeholder_rejected idleState "" rfl (Or.inl rfl)⟩

/-- C7: for every completed consultation (success or fallback) the history
entry embeds the preview slice `query[:100]`, whose characters are the
first 100 code points of the original query; in particular, for a query of
at most 100 code points the preview is the whole query. -/
theorem C7_query_preview (specialist timestamp query : String)
    (kickoff : Except String String) (history : List String) :
    (∃ pre post,
      (execute_consultation specialist timestamp query kickoff history).2 =
        history ++ [pre ++ (pySlice query 100 ++ post)]) ∧
    (pySlice query 100).data = query.data.take 100 ∧
    (query.data.length ≤ 100 → pySlice query 100 = query) := by
  refine ⟨?_, rfl, fun h => ?_⟩
  · cases kickoff with
    | ok r =>
        refine ⟨"\n[" ++ timestamp ++ "] " ++ specialist ++ ": ", "...\n", ?_⟩
        show history ++ [history_entry_success timestamp specialist query] = _
        rw [history_entry_success, String.append_assoc]
    | error e =>
        refine ⟨"\n[" ++ timestamp ++ "] " ++ specialist ++ " (demo fallback): ", "...\n", ?_⟩
        show history ++ [history_entry_fallback timestamp specialist query] = _
        rw [history_entry_fallback, String.append_assoc]
  · unfold pySlice
    rw [List.take_of_length_le h]

theorem C7_witness :
    ((∃ pre post,
        (execute_consultation "Nutrition Specialist" "2025-01-01 12:00:00"
            "What should I eat for diabetes?" (Except.ok "Eat low-glycemic foods.") []).2 =
          [] ++ [pre ++ (pySlice "What should I eat for diabetes?" 100 ++ post)]) ∧
      (pySlice "What should I eat for diabetes?" 100).data =
        ("What should I eat for diabetes?" : String).data.take 100 ∧
      (("What should I eat for diabetes?" : String).data.length ≤ 100 →
        pySlice "What should I eat for diabetes?" 100 = "What should I eat for diabetes?")) ∧
    pySlice "What should I eat for diabetes?" 100 = "What should I eat for diabetes?" :=
  have h := C7_query_preview "Nutrition Specialist" "2025-01-01 12:00:00"
    "What should I eat for diabetes?" (Except.ok "Eat low-glycemic foods.") []
  ⟨h, h.2.2 (by decide)⟩

theorem find?_eq_none_of_all_not {α : Type} (p : α → Bool) (l : List α)
    (h : l.all (fun x => ! p x) = true) : l.find? p = none := by
  induction l with
  | nil => rfl
  | cons a l ih =>
      simp only [List.all_cons, Bool.and_eq_true, Bool.not_eq_true'] at h
      simp [List.find?_cons, h.1, ih h.2]

/-- C8: an unrecognized specialist id degrades to the default Medical
Advisor descriptor without error in all three lookups — the GUI
`agent_configs.get`, the CLI `agent_configs.get`, and the CLI numbered-menu
selection (which falls back to entry "1"). -/
theorem C8_unknown_id_degrades_to_default (id choice : String)
    (hgui : gui_agent_configs.all (fun p => ! (p.1 == id)) = true)
    (hcli : cli_agent_configs.all (fun p => ! (p.1 == id)) = true)
    (hmenu : cli_specialists_menu.all (fun p => ! (p.1 == pyStrip choice)) = true) :
    gui_config id = gui_cfg_medical_advisor ∧
    cli_config id = cli_cfg_medical_advisor ∧
    get_healthcare_specialist choice =
      ("Medical Advisor", "General medical information and guidance") := by
  refine ⟨?_, ?_, ?_⟩
  · unfold gui_config
    rw [find?_eq_none_of_all_not _ _ hgui]
    rfl
  · unfold cli_config
    rw [find?_eq_none_of_all_not _ _ hcli]
    rfl
  · unfold get_healthcare_specialist
    rw [find?_eq_none_of_all_not _ _ hmenu]
    rfl

theorem C8_witness :
    gui_agent_configs.all (fun p => ! (p.1 == "Cardiologist")) = true ∧
    cli_agent_configs.all (fun p => ! (p.1 == "Cardiologist")) = true ∧
    cli_specialists_menu.all (fun p => ! (p.1 == pyStrip "9")) = true ∧
    (gui_config "Cardiologist" = gui_cfg_medical_advisor ∧
      cli_config "Cardiologist" = cli_cfg_medical_advisor ∧
      get_healthcare_specialist "9" =
        ("Medical Advisor", "General medical information and guidance")) :=
  ⟨by decide, by decide, by decide,
    C8_unknown_id_degrades_to_default "Cardiologist" "9" (by decide) (by decide) (by decide)⟩

/-- C9: the GUI enumerates 9 specialist ids and the CLI menu 7; the CLI
roles are a strict subset of the GUI list (two GUI entries are absent from
the CLI menu), the two lists being independently enumerated in the
source. -/
theorem C9_specialist_enumerations :
    gui_specialists.length = 9 ∧
    cli_specialist_roles.length = 7 ∧
    cli_specialist_roles.all (fun r => gui_specialists.contains r) = true ∧
    gui_specialists.contains "Preventive Medicine Expert" = true ∧
    cli_specialist_roles.contains "Preventive Medicine Expert" = false ∧
    gui_specialists.contains "Emergency Response Advisor" = true ∧
    cli_specialist_roles.contains "Emergency Response Advisor" = false := by
  decide

theorem cliDescTail_extra_directive :
    ContainsStr cliDescTail "5. Include relevant health tips" :=
  ⟨"\n            \n            INSTRUCTIONS:\n            1. Provide clear, accurate information\n            2. If symptoms are mentioned, explain possible conditions (not diagnoses)\n            3. Suggest when to seek immediate medical attention\n            4. Provide practical recommendations\n            ",
   "\n            6. Always remind that this is informational, not medical advice\n            7. Be compassionate and supportive in tone\n            \n            Provide a comprehensive, well-structured response.\n            ",
   by decide⟩

/-- C6 counterexample: the CLI prompt for a concrete submission carries the
directive line "5. Include relevant health tips", which is not one of the
six fixed GUI directives, so the instruction block handed to the gateway is
not exactly the six directives in both front ends — the CLI instruction
tail also differs from the GUI one. -/
theorem C6_counterexample :
    ContainsStr (cliTaskDescription "Medical Advisor" "What should I eat for diabetes?")
      "5. Include relevant health tips" ∧
    guiDirectives.contains "5. Include relevant health tips" = false ∧
    guiDirectives.length = 6 ∧
    cliDirectives.length = 7 ∧
    (cliDescTail == guiDescTail) = false := by
  refine ⟨?_, by decide, by decide, by decide, by decide⟩
  unfold cliTaskDescription
  exact cliDescTail_extra_directive.appendLeft _

/-- C6 (amended): for every accepted submission the gateway request embeds
the resolved specialist goal/backstory and the raw query; the GUI prompt's
instruction block is, verbatim, exactly the six fixed directives, while the
CLI prompt's block is exactly its seven directives — adding "Include
relevant health tips" and wording the immediate-attention, disclaimer and
compassionate-tone directives differently. -/
theorem C6_prompt_directive_blocks (specialist query : String) :
    (gui_gateway_request specialist query).goal = (gui_config specialist).goal ∧
    (gui_gateway_request specialist query).backstory = (gui_config specialist).backstory ∧
    (gui_gateway_request specialist query).descr = guiTaskDescription specialist query ∧
    ContainsStr (guiTaskDescription specialist query) query ∧
    (cli_gateway_request specialist query).goal = (cli_config specialist).goal ∧
    (cli_gateway_request specialist query).backstory = (cli_config specialist).backstory ∧
    ContainsStr (cliTaskDescription specialist query) query ∧
    guiDescTail =
      "\n                \n                INSTRUCTIONS:\n                " ++
        String.intercalate "\n                " guiDirectives ++
        "\n                \n                Provide a comprehensive, well-structured response.\n                " ∧
    cliDescTail =
      "\n            \n            INSTRUCTIONS:\n            " ++
        String.intercalate "\n            " cliDirectives ++
        "\n            \n            Provide a comprehensive, well-structured response.\n            " ∧
    guiDirectives.length = 6 ∧
    cliDirectives.length = 7 := by
  refine ⟨rfl, rfl, rfl, ?_, rfl, rfl, ?_, by decide, by decide, by decide, by decide⟩
  · unfold guiTaskDescription
    exact (containsStr_append_end _ _).appendRight _
  · unfold cliTaskDescription
    exact (containsStr_append_end _ _).appendRight _
